import Mathlib

/-!
# Verification of the mortgage-application backend

A shallow embedding of the Express backend of the mortgage-application
repository (controllers, models, auth token generation, chat service and the
database schema), with theorems settling the behavioural claims made by the
specification.  Database rows are Lean structures, the Postgres store is a
pair of row lists, the filesystem is the list of existing paths, and each
outbound HTTP call is represented by an oracle argument giving its outcome.
-/

/-- JavaScript truthiness for `x || y` on an optional string: `undefined` and
the empty string are falsy. -/
def jsOrStr (x : Option String) (y : String) : String :=
  match x with
  | some s => if s = "" then y else s
  | none => y

/-- JavaScript truthiness for `x || y` on an optional number: `undefined` and
`0` are falsy. -/
def jsOrRat (x : Option Rat) (y : Rat) : Rat :=
  match x with
  | some s => if s = 0 then y else s
  | none => y

/-- The `error` object of the JSON error envelope built by every controller:
`{ code, message }`. -/
structure ErrObj where
  code : String
  message : String
  deriving DecidableEq, Repr

/-- A row of the `documents` table (schema.sql; `ai_analysis` is an opaque
JSONB blob kept as its serialized text). -/
structure DocumentRec where
  id : String
  application_id : String
  filename : String
  original_name : String
  file_path : String
  file_size : Nat
  mime_type : String
  document_type : String
  ai_processed : Bool
  ai_analysis : Option String
  deriving DecidableEq, Repr

/-- A row of the `applications` table (schema.sql; the four JSONB form
columns are kept as serialized text). -/
structure ApplicationRec where
  id : String
  user_id : String
  application_number : String
  status : String
  personal_info : String
  property_details : String
  loan_info : String
  financial_info : String
  risk_score : Rat
  deriving DecidableEq, Repr

/-- A row of the `users` table (schema.sql). -/
structure UserRec where
  id : String
  email : String
  password_hash : String
  first_name : String
  last_name : String
  phone : Option String
  role : String
  deriving DecidableEq, Repr

/-- The relational store: the two tables the settled claims touch.  Rows are
kept in insertion order (an `INSERT` appends). -/
structure Db where
  documents : List DocumentRec
  applications : List ApplicationRec
  deriving DecidableEq, Repr

/-- The JSON `data` payloads the embedded handlers put in a response body. -/
inductive ApiData where
  | noData
  | doc (d : DocumentRec)
  | docs (ds : List DocumentRec)
  | app (a : ApplicationRec)
  | extracted (documentId filename extractedText processingMethod : String)
      (confidenceScore : Rat) (wordCount pageCount : Nat)
  | analyzed (documentId filename documentType rawText : String)
      (confidenceScore : Rat) (extractedFields suggestions : String)
  deriving DecidableEq, Repr

/-- An HTTP response as a controller builds it: status code, the `success`
flag, the optional `error` object, the optional top-level `message`, and the
`data` payload. -/
structure ApiResp where
  status : Nat
  success : Bool
  error : Option ErrObj
  message : Option String
  data : ApiData
  deriving DecidableEq, Repr

/-- The error envelope every controller builds on a failure path:
`res.status(status).json({ success: false, error: { code, message } })`. -/
def errResp (status : Nat) (code msg : String) : ApiResp :=
  { status := status, success := false, error := some { code := code, message := msg },
    message := none, data := ApiData.noData }

/-! ## Model layer (backend/src/models) -/

/-- The argument of `DocumentModel.create` (interface `CreateDocumentRequest`
in Document.ts). -/
structure CreateDocumentRequest where
  applicationId : String
  filename : String
  originalName : String
  filePath : String
  fileSize : Nat
  mimeType : String
  documentType : String
  deriving DecidableEq, Repr

/-- The names of the methods defined on `class DocumentModel` in
models/Document.ts.  `updateAiAnalysis` is not among them: the class defines
only `update` for mutating `ai_processed` and `ai_analysis`. -/
def documentModelMethods : List String :=
  ["create", "findById", "findByApplicationId", "update", "delete",
   "findByDocumentType", "getDocumentStats"]

/-- `DocumentModel.create`: `INSERT INTO documents ... RETURNING *`.  The
fresh `uuidv4()` is passed in as `newId`; unset columns take their schema
defaults (`ai_processed FALSE`, `ai_analysis NULL`). -/
def DocumentModel.create (db : Db) (newId : String) (r : CreateDocumentRequest) :
    DocumentRec × Db :=
  let d : DocumentRec :=
    { id := newId, application_id := r.applicationId, filename := r.filename,
      original_name := r.originalName, file_path := r.filePath,
      file_size := r.fileSize, mime_type := r.mimeType,
      document_type := r.documentType, ai_processed := false, ai_analysis := none }
  (d, { db with documents := db.documents ++ [d] })

/-- `DocumentModel.findById`: `SELECT * FROM documents WHERE id = $1`, then
`result.rows[0] || null`. -/
def DocumentModel.findById (db : Db) (id : String) : Option DocumentRec :=
  (db.documents.filter (fun d => d.id == id)).head?

/-- `DocumentModel.findByApplicationId`: `SELECT * FROM documents WHERE
application_id = $1 ORDER BY created_at DESC` (newest first, i.e. reverse
insertion order). -/
def DocumentModel.findByApplicationId (db : Db) (applicationId : String) :
    List DocumentRec :=
  ((db.documents.filter (fun d => d.application_id == applicationId))).reverse

/-- `DocumentModel.delete`: `DELETE FROM documents WHERE id = $1`; returns
`rowCount > 0`. -/
def DocumentModel.delete (db : Db) (id : String) : Bool × Db :=
  let remaining := db.documents.filter (fun d => !(d.id == id))
  (decide (remaining.length < db.documents.length),
   { db with documents := remaining })

/-- The argument of `ApplicationModel.create` (interface
`CreateApplicationRequest`; `status` and `riskScore` are optional). -/
structure CreateApplicationRequest where
  userId : String
  applicationNumber : String
  status : Option String
  personalInfo : String
  propertyDetails : String
  loanInfo : String
  financialInfo : String
  riskScore : Option Rat
  deriving DecidableEq, Repr

/-- `ApplicationModel.create`: `INSERT INTO applications ... RETURNING *`
with `applicationData.status || 'draft'` and `applicationData.riskScore || 0`;
the row id comes from the schema default `uuid_generate_v4()`, passed in as
`newId`. -/
def ApplicationModel.create (db : Db) (newId : String) (r : CreateApplicationRequest) :
    ApplicationRec × Db :=
  let a : ApplicationRec :=
    { id := newId, user_id := r.userId, application_number := r.applicationNumber,
      status := jsOrStr r.status "draft", personal_info := r.personalInfo,
      property_details := r.propertyDetails, loan_info := r.loanInfo,
      financial_info := r.financialInfo, risk_score := jsOrRat r.riskScore 0 }
  (a, { db with applications := db.applications ++ [a] })

/-- `ApplicationModel.findById`: `SELECT * FROM applications WHERE id = $1`,
then `result.rows[0] || null`. -/
def ApplicationModel.findById (db : Db) (id : String) : Option ApplicationRec :=
  (db.applications.filter (fun a => a.id == id)).head?

/-! ## Helper lemma: a freshly appended row is found by its key -/

/-- Looking up a key that occurs nowhere in `l` finds the row appended for it. -/
theorem filter_key_append_fresh {α : Type} (key : α → String) (l : List α) (d : α)
    (h : key d ∉ l.map key) :
    ((l ++ [d]).filter (fun x => key x == key d)).head? = some d := by
  induction l with
  | nil => simp
  | cons a t ih =>
    simp only [List.map_cons, List.mem_cons] at h
    push_neg at h
    obtain ⟨h1, h2⟩ := h
    have hne : (key a == key d) = false := by
      simp only [beq_eq_false_iff_ne]
      exact fun e => h1 (e.symm)
    simp only [List.cons_append, List.filter_cons, hne]
    simpa using ih h2

/-- C4: a record returned by `ApplicationModel.create` (resp.
`DocumentModel.create`) is returned unchanged by a subsequent `findById` with
its id, provided the generated id is fresh (which the primary-key constraint
guarantees). -/
theorem created_record_retrievable_by_id
    (db : Db) (newId : String) (dreq : CreateDocumentRequest)
    (areq : CreateApplicationRequest)
    (hd : newId ∉ db.documents.map DocumentRec.id)
    (ha : newId ∉ db.applications.map ApplicationRec.id) :
    DocumentModel.findById (DocumentModel.create db newId dreq).2
      (DocumentModel.create db newId dreq).1.id
      = some (DocumentModel.create db newId dreq).1 ∧
    ApplicationModel.findById (ApplicationModel.create db newId areq).2
      (ApplicationModel.create db newId areq).1.id
      = some (ApplicationModel.create db newId areq).1 := by
  constructor
  · exact filter_key_append_fresh DocumentRec.id db.documents _ hd
  · exact filter_key_append_fresh ApplicationRec.id db.applications _ ha

/-- Witness for C4 at a concrete store and request. -/
theorem created_record_retrievable_by_id_w :
    ("d1" ∉ (Db.mk [] []).documents.map DocumentRec.id) ∧
    ("d1" ∉ (Db.mk [] []).applications.map ApplicationRec.id) ∧
    (DocumentModel.findById
        (DocumentModel.create (Db.mk [] []) "d1"
          ⟨"a1", "f.pdf", "f.pdf", "/up/f.pdf", 10, "application/pdf", "payslip"⟩).2
        (DocumentModel.create (Db.mk [] []) "d1"
          ⟨"a1", "f.pdf", "f.pdf", "/up/f.pdf", 10, "application/pdf", "payslip"⟩).1.id
      = some (DocumentModel.create (Db.mk [] []) "d1"
          ⟨"a1", "f.pdf", "f.pdf", "/up/f.pdf", 10, "application/pdf", "payslip"⟩).1 ∧
     ApplicationModel.findById
        (ApplicationModel.create (Db.mk [] []) "d1"
          ⟨"u1", "APP-2025-001", none, "pi", "pd", "li", "fi", none⟩).2
        (ApplicationModel.create (Db.mk [] []) "d1"
          ⟨"u1", "APP-2025-001", none, "pi", "pd", "li", "fi", none⟩).1.id
      = some (ApplicationModel.create (Db.mk [] []) "d1"
          ⟨"u1", "APP-2025-001", none, "pi", "pd", "li", "fi", none⟩).1) :=
  ⟨by decide, by decide,
   created_record_retrievable_by_id (Db.mk [] []) "d1"
     ⟨"a1", "f.pdf", "f.pdf", "/up/f.pdf", 10, "application/pdf", "payslip"⟩
     ⟨"u1", "APP-2025-001", none, "pi", "pd", "li", "fi", none⟩
     (by decide) (by decide)⟩

/-! ## Document controller (backend/src/controllers/documentController.ts)

The `authenticateToken` middleware runs on every document route and sets
`req.user`; it is passed to each handler below as `reqUser`.  The handler
bodies of `getDocuments`, `downloadDocument` and `deleteDocument` never read
it. -/

/-- `getDocuments` (lines 134-171): validate `applicationId`, then return the
rows of `findByApplicationId`.  Status defaults to 200 on `res.json`. -/
def DocumentController.getDocuments (db : Db) (reqUser : String)
    (applicationId : String) : ApiResp :=
  if applicationId = "" then
    errResp 400 "MISSING_APPLICATION_ID" "Application ID is required"
  else
    { status := 200, success := true, error := none,
      message := some "Documents retrieved successfully",
      data := ApiData.docs (DocumentModel.findByApplicationId db applicationId) }

/-- What `downloadDocument` sends: either a JSON envelope or the streamed
file with its `Content-Disposition`/`Content-Type` headers. -/
inductive DownloadResult where
  | jsonResp (r : ApiResp)
  | fileStream (path originalName mime : String)
  deriving DecidableEq, Repr

/-- `downloadDocument` (lines 173-232): validate the id, look the row up,
check the file exists on disk, then stream it. -/
def DocumentController.downloadDocument (db : Db) (fs : List String)
    (reqUser : String) (documentId : String) : DownloadResult :=
  if documentId = "" then
    DownloadResult.jsonResp (errResp 400 "MISSING_DOCUMENT_ID" "Document ID is required")
  else
    match DocumentModel.findById db documentId with
    | none => DownloadResult.jsonResp (errResp 404 "DOCUMENT_NOT_FOUND" "Document not found")
    | some doc =>
      if doc.file_path ∉ fs then
        DownloadResult.jsonResp (errResp 404 "FILE_NOT_FOUND" "File not found on server")
      else
        DownloadResult.fileStream doc.file_path doc.original_name doc.mime_type

/-- Outcome of a `deleteDocument` request: the response plus the store and
filesystem it leaves behind. -/
structure DeleteOutcome where
  resp : ApiResp
  db : Db
  fs : List String
  deriving DecidableEq, Repr

/-- `deleteDocument` (lines 234-289): validate the id, look the row up,
unlink the file if it exists (`fs.unlinkSync`), then delete the row.
`dbDeleteThrows` is the oracle for `documentModel.delete` throwing, in which
case the outer catch answers 500 with the file already unlinked and the row
untouched. -/
def DocumentController.deleteDocument (db : Db) (fs : List String) (reqUser : String)
    (documentId : String) (dbDeleteThrows : Bool) : DeleteOutcome :=
  if documentId = "" then
    ⟨errResp 400 "MISSING_DOCUMENT_ID" "Document ID is required", db, fs⟩
  else
    match DocumentModel.findById db documentId with
    | none => ⟨errResp 404 "DOCUMENT_NOT_FOUND" "Document not found", db, fs⟩
    | some doc =>
      let fs1 := if doc.file_path ∈ fs then fs.filter (fun p => !(p == doc.file_path)) else fs
      if dbDeleteThrows then
        ⟨errResp 500 "DELETE_ERROR" "Failed to delete document", db, fs1⟩
      else
        ⟨{ status := 200, success := true, error := none,
           message := some "Document deleted successfully", data := ApiData.noData },
         (DocumentModel.delete db documentId).2, fs1⟩

/-- The mime types `extractTextFromDocument` accepts (line 334). -/
def supportedTypes : List String :=
  ["application/pdf", "image/jpeg", "image/jpg", "image/png"]

/-- The guard sequence of `extractTextFromDocument` (lines 296-344): each
early `return res.status(...)` becomes an `Except.error`. -/
def extractTextPre (db : Db) (fs : List String) (documentId : String) :
    Except ApiResp DocumentRec :=
  if documentId = "" then
    Except.error (errResp 400 "MISSING_DOCUMENT_ID" "Document ID is required")
  else
    match DocumentModel.findById db documentId with
    | none => Except.error (errResp 404 "DOCUMENT_NOT_FOUND" "Document not found")
    | some doc =>
      if doc.file_path ∉ fs then
        Except.error (errResp 404 "FILE_NOT_FOUND" "File not found on server")
      else if doc.mime_type ∉ supportedTypes then
        Except.error (errResp 400 "UNSUPPORTED_FILE_TYPE" "Text extraction not supported for this file type")
      else
        Except.ok doc

/-- The guard sequence of `analyzeDocumentStructure` (lines 439-474): same as
the extract-text guards but with no supported-mime-type check. -/
def analyzePre (db : Db) (fs : List String) (documentId : String) :
    Except ApiResp DocumentRec :=
  if documentId = "" then
    Except.error (errResp 400 "MISSING_DOCUMENT_ID" "Document ID is required")
  else
    match DocumentModel.findById db documentId with
    | none => Except.error (errResp 404 "DOCUMENT_NOT_FOUND" "Document not found")
    | some doc =>
      if doc.file_path ∉ fs then
        Except.error (errResp 404 "FILE_NOT_FOUND" "File not found on server")
      else
        Except.ok doc

/-- The `data.data` of a successful AI-service `/extract-text` reply. -/
structure ExtractData where
  extracted_text : String
  confidence_score : Rat
  processing_method : String
  word_count : Nat
  page_count : Nat
  deriving DecidableEq, Repr

/-- The `data.data` of a successful AI-service `/analyze-document` reply
(`extracted_fields` and `suggestions` kept as serialized JSON). -/
structure AnalyzeData where
  document_type : String
  extracted_fields : String
  confidence_score : Rat
  raw_text : String
  suggestions : String
  deriving DecidableEq, Repr

/-- Outcome of the single `axios.post` to the AI service. -/
inductive AiOutcome (α : Type) where
  | success (data : α)
  | connRefused
  | otherFailure
  deriving DecidableEq, Repr

/-- An error caught by the inner `catch (aiError)` of the two AI handlers. -/
inductive AiCallError where
  | connRefused
  | axiosOther
  | typeError (name : String)
  deriving DecidableEq, Repr

/-- `aiError.code`: only the connection-refused axios error carries the code
the catch block tests; a thrown `TypeError` has no `code` field. -/
def aiErrorCode : AiCallError → Option String
  | AiCallError.connRefused => some "ECONNREFUSED"
  | AiCallError.axiosOther => none
  | AiCallError.typeError _ => none

/-- JavaScript member call on the `documentModel` object: a name that is not
a method defined on `class DocumentModel` is `undefined`, so calling it
throws a `TypeError`. -/
def documentModelCall (name : String) : Except AiCallError Unit :=
  if name ∈ documentModelMethods then Except.ok ()
  else Except.error (AiCallError.typeError name)

/-- Body of the inner `try` of `extractTextFromDocument` (lines 349-395):
after a successful AI reply it calls `documentModel.updateAiAnalysis`, then
builds the success envelope with message `Text extracted successfully`. -/
def extractInnerTry (doc : DocumentRec) (documentId : String)
    (ai : AiOutcome ExtractData) : Except AiCallError ApiResp :=
  match ai with
  | AiOutcome.connRefused => Except.error AiCallError.connRefused
  | AiOutcome.otherFailure => Except.error AiCallError.axiosOther
  | AiOutcome.success data =>
    match documentModelCall "updateAiAnalysis" with
    | Except.error e => Except.error e
    | Except.ok _ =>
      Except.ok
        { status := 200, success := true, error := none,
          message := some "Text extracted successfully",
          data := ApiData.extracted documentId doc.original_name data.extracted_text
            data.processing_method data.confidence_score data.word_count data.page_count }

/-- The inner `catch (aiError)` of `extractTextFromDocument` (lines 396-419). -/
def extractCatch (e : AiCallError) : ApiResp :=
  if aiErrorCode e = some "ECONNREFUSED" then
    errResp 503 "AI_SERVICE_UNAVAILABLE"
      "Document intelligence service is currently unavailable. Please try again later."
  else
    errResp 500 "AI_PROCESSING_ERROR" "Failed to process document with AI service"

/-- A handler run together with the endpoints of the AI-service HTTP calls it
issued, in order. -/
structure HandlerRun where
  resp : ApiResp
  aiCalls : List String
  deriving DecidableEq, Repr

/-- `extractTextFromDocument` (lines 291-432): guards, then one
`axios.post` to `/extract-text` with its result handled by the inner
try/catch. -/
def DocumentController.extractTextFromDocument (db : Db) (fs : List String)
    (reqUser : String) (documentId : String) (ai : AiOutcome ExtractData) : HandlerRun :=
  match extractTextPre db fs documentId with
  | Except.error r => ⟨r, []⟩
  | Except.ok doc =>
    match extractInnerTry doc documentId ai with
    | Except.ok r => ⟨r, ["/extract-text"]⟩
    | Except.error e => ⟨extractCatch e, ["/extract-text"]⟩

/-- Body of the inner `try` of `analyzeDocumentStructure` (lines 479-526):
after a successful AI reply it calls `documentModel.updateAiAnalysis`, then
builds the success envelope with message `Document analyzed successfully`. -/
def analyzeInnerTry (doc : DocumentRec) (documentId : String)
    (ai : AiOutcome AnalyzeData) : Except AiCallError ApiResp :=
  match ai with
  | AiOutcome.connRefused => Except.error AiCallError.connRefused
  | AiOutcome.otherFailure => Except.error AiCallError.axiosOther
  | AiOutcome.success data =>
    match documentModelCall "updateAiAnalysis" with
    | Except.error e => Except.error e
    | Except.ok _ =>
      Except.ok
        { status := 200, success := true, error := none,
          message := some "Document analyzed successfully",
          data := ApiData.analyzed documentId doc.original_name data.document_type
            data.raw_text data.confidence_score data.extracted_fields data.suggestions }

/-- The inner `catch (aiError)` of `analyzeDocumentStructure` (lines 527-549). -/
def analyzeCatch (e : AiCallError) : ApiResp :=
  if aiErrorCode e = some "ECONNREFUSED" then
    errResp 503 "AI_SERVICE_UNAVAILABLE"
      "Document analysis service is currently unavailable. Please try again later."
  else
    errResp 500 "AI_ANALYSIS_ERROR" "Failed to analyze document structure"

/-- `analyzeDocumentStructure` (lines 434-562): guards, then one `axios.post`
to `/analyze-document` with its result handled by the inner try/catch. -/
def DocumentController.analyzeDocumentStructure (db : Db) (fs : List String)
    (reqUser : String) (documentId : String) (ai : AiOutcome AnalyzeData) : HandlerRun :=
  match analyzePre db fs documentId with
  | Except.error r => ⟨r, []⟩
  | Except.ok doc =>
    match analyzeInnerTry doc documentId ai with
    | Except.ok r => ⟨r, ["/analyze-document"]⟩
    | Except.error e => ⟨analyzeCatch e, ["/analyze-document"]⟩

/-! ## Application controller (backend/src/controllers/applicationController.ts) -/

/-- `getApplicationById` (lines 91-165): validate the id and `req.user?.id`,
look the application up, answer 403 on an ownership mismatch. -/
def ApplicationController.getApplicationById (db : Db) (id : String)
    (reqUser : Option String) : ApiResp :=
  if id = "" then errResp 400 "BAD_REQUEST" "Application ID is required"
  else
    match reqUser with
    | none => errResp 401 "UNAUTHORIZED" "User not authenticated"
    | some userId =>
      match ApplicationModel.findById db id with
      | none => errResp 404 "NOT_FOUND" "Application not found"
      | some app =>
        if app.user_id ≠ userId then errResp 403 "FORBIDDEN" "Access denied"
        else
          { status := 200, success := true, error := none,
            message := some "Application retrieved successfully",
            data := ApiData.app app }

/-! ## Claims about the document controller -/

/-- C1: `updateAiAnalysis` is not a method of `DocumentModel` (which defines
`update`), so once the AI-service call succeeds the handlers throw inside the
inner try and answer the 500 `AI_PROCESSING_ERROR` / `AI_ANALYSIS_ERROR`
envelope; the success messages are unreachable — in fact neither handler can
ever answer with `success: true`. -/
theorem extract_analyze_update_method_missing
    (db : Db) (fs : List String) (u documentId : String) (doc : DocumentRec)
    (ed : ExtractData) (ad : AnalyzeData)
    (aiE : AiOutcome ExtractData) (aiA : AiOutcome AnalyzeData)
    (hex : extractTextPre db fs documentId = Except.ok doc)
    (han : analyzePre db fs documentId = Except.ok doc) :
    ("updateAiAnalysis" ∉ documentModelMethods ∧ "update" ∈ documentModelMethods) ∧
    (DocumentController.extractTextFromDocument db fs u documentId
        (AiOutcome.success ed)).resp
      = errResp 500 "AI_PROCESSING_ERROR" "Failed to process document with AI service" ∧
    (DocumentController.analyzeDocumentStructure db fs u documentId
        (AiOutcome.success ad)).resp
      = errResp 500 "AI_ANALYSIS_ERROR" "Failed to analyze document structure" ∧
    (DocumentController.extractTextFromDocument db fs u documentId aiE).resp.success
      = false ∧
    (DocumentController.analyzeDocumentStructure db fs u documentId aiA).resp.success
      = false := by
  refine ⟨by decide, ?_, ?_, ?_, ?_⟩
  · simp [DocumentController.extractTextFromDocument, hex, extractInnerTry,
      documentModelCall, documentModelMethods, extractCatch, aiErrorCode]
  · simp [DocumentController.analyzeDocumentStructure, han, analyzeInnerTry,
      documentModelCall, documentModelMethods, analyzeCatch, aiErrorCode]
  · unfold DocumentController.extractTextFromDocument
    cases h : extractTextPre db fs documentId with
    | error r =>
      rw [hex] at h
      cases h
    | ok d =>
      cases aiE <;>
        simp [extractInnerTry, documentModelCall, documentModelMethods,
          extractCatch, aiErrorCode, errResp]
  · unfold DocumentController.analyzeDocumentStructure
    cases h : analyzePre db fs documentId with
    | error r =>
      rw [han] at h
      cases h
    | ok d =>
      cases aiA <;>
        simp [analyzeInnerTry, documentModelCall, documentModelMethods,
          analyzeCatch, aiErrorCode, errResp]

deriving instance DecidableEq for Except

/-! ## Concrete fixtures used by the witnesses -/

/-- A concrete stored document with a supported mime type. -/
def sampleDoc : DocumentRec :=
  ⟨"d1", "a1", "f.pdf", "f.pdf", "/up/f.pdf", 10, "application/pdf", "payslip",
   false, none⟩

/-- A store holding just `sampleDoc`. -/
def sampleDb : Db := ⟨[sampleDoc], []⟩

/-- A filesystem on which `sampleDoc`'s file exists. -/
def sampleFs : List String := ["/up/f.pdf"]

/-- A concrete successful `/extract-text` payload. -/
def sampleEd : ExtractData := ⟨"text", 9 / 10, "ocr", 2, 1⟩

/-- A concrete successful `/analyze-document` payload. -/
def sampleAd : AnalyzeData := ⟨"payslip", "fields", 9 / 10, "text", "sugg"⟩

/-- A concrete application owned by the user `alice`. -/
def sampleApp : ApplicationRec :=
  ⟨"app-1", "alice", "APP-2025-001", "draft", "pi", "pd", "li", "fi", 0⟩

/-- A store holding just `sampleApp`. -/
def sampleAppDb : Db := ⟨[], [sampleApp]⟩

/-- Witness for C1 on the concrete fixtures. -/
theorem extract_analyze_update_method_missing_w :
    extractTextPre sampleDb sampleFs "d1" = Except.ok sampleDoc ∧
    analyzePre sampleDb sampleFs "d1" = Except.ok sampleDoc ∧
    (("updateAiAnalysis" ∉ documentModelMethods ∧ "update" ∈ documentModelMethods) ∧
     (DocumentController.extractTextFromDocument sampleDb sampleFs "u1" "d1"
         (AiOutcome.success sampleEd)).resp
       = errResp 500 "AI_PROCESSING_ERROR" "Failed to process document with AI service" ∧
     (DocumentController.analyzeDocumentStructure sampleDb sampleFs "u1" "d1"
         (AiOutcome.success sampleAd)).resp
       = errResp 500 "AI_ANALYSIS_ERROR" "Failed to analyze document structure" ∧
     (DocumentController.extractTextFromDocument sampleDb sampleFs "u1" "d1"
         (AiOutcome.success sampleEd)).resp.success = false ∧
     (DocumentController.analyzeDocumentStructure sampleDb sampleFs "u1" "d1"
         (AiOutcome.success sampleAd)).resp.success = false) :=
  ⟨by decide, by decide,
   extract_analyze_update_method_missing sampleDb sampleFs "u1" "d1" sampleDoc
     sampleEd sampleAd (AiOutcome.success sampleEd) (AiOutcome.success sampleAd)
     (by decide) (by decide)⟩

/-- C2: the three document handlers never read the authenticated user, so
their entire observable outcome (response, stored rows, filesystem) is the
same whichever user sends the request; `getApplicationById`, by contrast,
answers 403 whenever the requester does not own the application. -/
theorem document_handlers_user_independent
    (db : Db) (fs : List String) (appId docId u1 u2 : String) (b : Bool)
    (adb : Db) (id u : String) (app : ApplicationRec)
    (hfind : ApplicationModel.findById adb id = some app)
    (hown : app.user_id ≠ u) (hid : id ≠ "") :
    DocumentController.getDocuments db u1 appId
      = DocumentController.getDocuments db u2 appId ∧
    DocumentController.downloadDocument db fs u1 docId
      = DocumentController.downloadDocument db fs u2 docId ∧
    DocumentController.deleteDocument db fs u1 docId b
      = DocumentController.deleteDocument db fs u2 docId b ∧
    ApplicationController.getApplicationById adb id (some u)
      = errResp 403 "FORBIDDEN" "Access denied" := by
  refine ⟨rfl, rfl, rfl, ?_⟩
  simp [ApplicationController.getApplicationById, hid, hfind, hown]

/-- Witness for C2: `bob` reading `alice`'s application is denied, while the
document handlers treat `alice` and `bob` alike. -/
theorem document_handlers_user_independent_w :
    ApplicationModel.findById sampleAppDb "app-1" = some sampleApp ∧
    sampleApp.user_id ≠ "bob" ∧
    ("app-1" : String) ≠ "" ∧
    (DocumentController.getDocuments sampleDb "alice" "a1"
       = DocumentController.getDocuments sampleDb "bob" "a1" ∧
     DocumentController.downloadDocument sampleDb sampleFs "alice" "d1"
       = DocumentController.downloadDocument sampleDb sampleFs "bob" "d1" ∧
     DocumentController.deleteDocument sampleDb sampleFs "alice" "d1" false
       = DocumentController.deleteDocument sampleDb sampleFs "bob" "d1" false ∧
     ApplicationController.getApplicationById sampleAppDb "app-1" (some "bob")
       = errResp 403 "FORBIDDEN" "Access denied") :=
  ⟨by decide, by decide, by decide,
   document_handlers_user_independent sampleDb sampleFs "a1" "d1" "alice" "bob" false
     sampleAppDb "app-1" "bob" sampleApp (by decide) (by decide) (by decide)⟩

/-- Every early return of the extract-text guard sequence is an error
envelope with `success: false`. -/
theorem extractTextPre_error_success (db : Db) (fs : List String)
    (documentId : String) (r : ApiResp)
    (h : extractTextPre db fs documentId = Except.error r) :
    r.success = false := by
  unfold extractTextPre at h
  split at h
  next => cases h; rfl
  next =>
    split at h
    next => cases h; rfl
    next doc =>
      split at h
      next => cases h; rfl
      next =>
        split at h
        next => cases h; rfl
        next => cases h

/-- C6: an extract-text request issues at most one AI-service HTTP call, the
set of calls issued does not depend on the call's outcome (so a failure is
never retried), and both failure outcomes produce an immediate error
response. -/
theorem extract_text_at_most_one_ai_call
    (db : Db) (fs : List String) (u documentId : String)
    (ai ai2 : AiOutcome ExtractData) :
    (DocumentController.extractTextFromDocument db fs u documentId ai).aiCalls.length
      ≤ 1 ∧
    (DocumentController.extractTextFromDocument db fs u documentId ai).aiCalls
      = (DocumentController.extractTextFromDocument db fs u documentId ai2).aiCalls ∧
    (DocumentController.extractTextFromDocument db fs u documentId
        AiOutcome.connRefused).resp.success = false ∧
    (DocumentController.extractTextFromDocument db fs u documentId
        AiOutcome.otherFailure).resp.success = false := by
  unfold DocumentController.extractTextFromDocument
  cases h : extractTextPre db fs documentId with
  | error r =>
    have hs := extractTextPre_error_success db fs documentId r h
    simp [hs]
  | ok doc =>
    refine ⟨?_, ?_, ?_, ?_⟩
    · cases hi : extractInnerTry doc documentId ai <;> simp [hi]
    · cases hi : extractInnerTry doc documentId ai <;>
        cases hi2 : extractInnerTry doc documentId ai2 <;> simp [hi, hi2]
    · simp [extractInnerTry, extractCatch, aiErrorCode, errResp]
    · simp [extractInnerTry, extractCatch, aiErrorCode, errResp]

/-- C9: when the row lookup succeeds, the file exists and the database
deletion throws, `deleteDocument` answers 500 `DELETE_ERROR` having already
unlinked the file, with no compensation: the row is still stored while the
file is gone. -/
theorem delete_document_no_partial_failure_recovery
    (db : Db) (fs : List String) (u documentId : String) (doc : DocumentRec)
    (hfind : DocumentModel.findById db documentId = some doc)
    (hid : documentId ≠ "") :
    (DocumentController.deleteDocument db fs u documentId true).resp
      = errResp 500 "DELETE_ERROR" "Failed to delete document" ∧
    doc.file_path ∉ (DocumentController.deleteDocument db fs u documentId true).fs ∧
    (DocumentController.deleteDocument db fs u documentId true).db = db ∧
    DocumentModel.findById (DocumentController.deleteDocument db fs u documentId true).db
      documentId = some doc := by
  unfold DocumentController.deleteDocument
  simp only [hid, if_neg, hfind]
  refine ⟨by simp, ?_, by simp, by simp [hfind]⟩
  by_cases hmem : doc.file_path ∈ fs <;> simp [hmem, List.mem_filter]

/-- Witness for C9 on the concrete fixtures: after the failed delete the file
is gone but the row is still found. -/
theorem delete_document_no_partial_failure_recovery_w :
    DocumentModel.findById sampleDb "d1" = some sampleDoc ∧
    ("d1" : String) ≠ "" ∧
    ((DocumentController.deleteDocument sampleDb sampleFs "u1" "d1" true).resp
       = errResp 500 "DELETE_ERROR" "Failed to delete document" ∧
     sampleDoc.file_path ∉ (DocumentController.deleteDocument sampleDb sampleFs "u1" "d1" true).fs ∧
     (DocumentController.deleteDocument sampleDb sampleFs "u1" "d1" true).db = sampleDb ∧
     DocumentModel.findById
       (DocumentController.deleteDocument sampleDb sampleFs "u1" "d1" true).db "d1"
       = some sampleDoc) :=
  ⟨by decide, by decide,
   delete_document_no_partial_failure_recovery sampleDb sampleFs "u1" "d1" sampleDoc
     (by decide) (by decide)⟩

/-! ## Outer catch blocks of the controller handlers (C3) -/

/-- The methods of the three controller classes (ApplicationController,
AuthController, DocumentController). -/
inductive Handler where
  | createApplication
  | getUserApplications
  | getApplicationById
  | updateApplicationStatus
  | register
  | login
  | refreshToken
  | logout
  | uploadDocument
  | getDocuments
  | downloadDocument
  | deleteDocument
  | extractTextFromDocument
  | analyzeDocumentStructure
  deriving DecidableEq, Repr

/-- The response each handler's outermost `catch` builds, translated from the
catch block ending each method. -/
def outerCatchResponse : Handler → ApiResp
  | Handler.createApplication => errResp 500 "INTERNAL_ERROR" "Failed to create application"
  | Handler.getUserApplications => errResp 500 "INTERNAL_ERROR" "Failed to retrieve applications"
  | Handler.getApplicationById => errResp 500 "INTERNAL_ERROR" "Failed to retrieve application"
  | Handler.updateApplicationStatus => errResp 500 "INTERNAL_ERROR" "Failed to update application"
  | Handler.register => errResp 500 "INTERNAL_ERROR" "Internal server error"
  | Handler.login => errResp 500 "INTERNAL_ERROR" "Internal server error"
  | Handler.refreshToken => errResp 401 "INVALID_REFRESH_TOKEN" "Invalid refresh token"
  | Handler.logout => errResp 500 "INTERNAL_ERROR" "Internal server error"
  | Handler.uploadDocument => errResp 500 "UPLOAD_ERROR" "Failed to upload document"
  | Handler.getDocuments => errResp 500 "GET_DOCUMENTS_ERROR" "Failed to retrieve documents"
  | Handler.downloadDocument => errResp 500 "DOWNLOAD_ERROR" "Failed to download document"
  | Handler.deleteDocument => errResp 500 "DELETE_ERROR" "Failed to delete document"
  | Handler.extractTextFromDocument => errResp 500 "EXTRACTION_ERROR" "Failed to extract text from document"
  | Handler.analyzeDocumentStructure => errResp 500 "ANALYSIS_ERROR" "Failed to analyze document"

/-- C3 counterexample: an exception reaching the outer catch of
`AuthController.refreshToken` produces status 401, not 500. -/
theorem refresh_token_outer_catch_401 :
    (outerCatchResponse Handler.refreshToken).status = 401 ∧
    (outerCatchResponse Handler.refreshToken).status ≠ 500 := by decide

/-- C3 as amended: every outer catch answers a JSON envelope with
`success: false` and an error object carrying a nonempty message, with
status 500 for every handler except `refreshToken`, whose catch answers 401. -/
theorem outer_catch_responses_shape (h : Handler) :
    (outerCatchResponse h).success = false ∧
    (outerCatchResponse h).error ≠ none ∧
    (outerCatchResponse h).error.map ErrObj.message ≠ some "" ∧
    (outerCatchResponse h).status
      = (if h = Handler.refreshToken then 401 else 500) := by
  cases h <;> decide

/-! ## Chat service (backend/src/services/chatbotService.ts and the LM Studio
variant of the same class) -/

/-- One `choices` entry of a chat-completion reply: `{ message: { content } }`. -/
structure ChatChoiceMessage where
  content : String
  deriving DecidableEq, Repr

/-- A choice of the chat-completion reply. -/
structure ChatChoice where
  message : ChatChoiceMessage
  deriving DecidableEq, Repr

/-- The body of the external chat-completion reply (`OpenRouterResponse` /
`LLMResponse`): an array of choices. -/
structure OpenRouterResponse where
  choices : List ChatChoice
  deriving DecidableEq, Repr

/-- Outcome of the `axios.post` to the chat-completion endpoint. -/
inductive ChatCallOutcome where
  | ok (resp : OpenRouterResponse)
  | httpStatus (status : Nat)
  | connRefused
  | networkOther
  deriving DecidableEq, Repr

/-- An error thrown inside the `try` of `generateResponse`, as the `catch`
block distinguishes it: a plain `Error`, or an axios error with its optional
`code` and optional `response.status`. -/
inductive ChatThrown where
  | apiKeyNotConfigured
  | noResponseContent
  | axios (code : Option String) (status : Option Nat)
  deriving DecidableEq, Repr

/-- The `try` body of `ChatbotService.generateResponse` (lines 28-86 of
chatbotService.ts): guard the API key, make the call, read
`response.data.choices[0]?.message?.content` and throw when that is absent
or empty (JavaScript `if (!assistantMessage)`). -/
def ChatbotService.tryGenerate (apiKey : String) (call : ChatCallOutcome) :
    Except ChatThrown String :=
  if apiKey = "" then Except.error ChatThrown.apiKeyNotConfigured
  else
    match call with
    | ChatCallOutcome.ok resp =>
      match resp.choices.head? with
      | none => Except.error ChatThrown.noResponseContent
      | some c =>
        if c.message.content = "" then Except.error ChatThrown.noResponseContent
        else Except.ok c.message.content
    | ChatCallOutcome.httpStatus s => Except.error (ChatThrown.axios none (some s))
    | ChatCallOutcome.connRefused => Except.error (ChatThrown.axios (some "ECONNREFUSED") none)
    | ChatCallOutcome.networkOther => Except.error (ChatThrown.axios none none)

/-- The `catch` of `ChatbotService.generateResponse` (lines 87-101): only
axios errors with status 401/429/500 get a specific message; everything else
is rethrown as the generic failure message. -/
def ChatbotService.catchMessage : ChatThrown → String
  | ChatThrown.axios _ (some 401) => "Invalid API key for OpenRouter"
  | ChatThrown.axios _ (some 429) => "Rate limit exceeded. Please try again later."
  | ChatThrown.axios _ (some 500) => "OpenRouter service is temporarily unavailable"
  | _ => "Failed to generate response. Please try again."

/-- `ChatbotService.generateResponse`: the try body with its catch applied. -/
def ChatbotService.generateResponse (apiKey : String) (call : ChatCallOutcome) :
    Except String String :=
  match ChatbotService.tryGenerate apiKey call with
  | Except.ok s => Except.ok s
  | Except.error e => Except.error (ChatbotService.catchMessage e)

/-- The `try` body of the LM Studio variant of
`ChatbotService.generateResponse` (src/unnamed/part_017, lines 30-77): no API
key guard, same read of `choices[0]?.message?.content`. -/
def ChatbotServiceLM.tryGenerate (call : ChatCallOutcome) :
    Except ChatThrown String :=
  match call with
  | ChatCallOutcome.ok resp =>
    match resp.choices.head? with
    | none => Except.error ChatThrown.noResponseContent
    | some c =>
      if c.message.content = "" then Except.error ChatThrown.noResponseContent
      else Except.ok c.message.content
  | ChatCallOutcome.httpStatus s => Except.error (ChatThrown.axios none (some s))
  | ChatCallOutcome.connRefused => Except.error (ChatThrown.axios (some "ECONNREFUSED") none)
  | ChatCallOutcome.networkOther => Except.error (ChatThrown.axios none none)

/-- The `catch` of the LM Studio variant (part_017 lines 79-91): the
connection-refused code and status 500 get specific messages. -/
def ChatbotServiceLM.catchMessage : ChatThrown → String
  | ChatThrown.axios (some "ECONNREFUSED") _ =>
    "LM Studio is not running. Please start LM Studio and ensure the server is running on http://127.0.0.1:1234"
  | ChatThrown.axios _ (some 500) =>
    "LM Studio service error. Please check the model is loaded correctly."
  | _ => "Failed to generate response. Please ensure LM Studio is running."

/-- The LM Studio variant of `generateResponse`. -/
def ChatbotServiceLM.generateResponse (call : ChatCallOutcome) :
    Except String String :=
  match ChatbotServiceLM.tryGenerate call with
  | Except.ok s => Except.ok s
  | Except.error e => Except.error (ChatbotServiceLM.catchMessage e)

/-- C5: both chat services are pass-throughs: with a configured key and a
nonempty first-choice content the returned string is exactly that content;
every successful return is the first choice's content verbatim; and an empty
choices array makes the call throw. -/
theorem chat_service_pass_through
    (apiKey : String) (hk : apiKey ≠ "") (c : ChatChoice) (rest : List ChatChoice)
    (hc : c.message.content ≠ "") (r : OpenRouterResponse) (s : String) :
    ChatbotService.generateResponse apiKey (ChatCallOutcome.ok ⟨c :: rest⟩)
      = Except.ok c.message.content ∧
    ChatbotService.generateResponse apiKey (ChatCallOutcome.ok ⟨[]⟩)
      = Except.error "Failed to generate response. Please try again." ∧
    (ChatbotService.generateResponse apiKey (ChatCallOutcome.ok r) = Except.ok s →
      ∃ c0 rest0, r.choices = c0 :: rest0 ∧ s = c0.message.content) ∧
    ChatbotServiceLM.generateResponse (ChatCallOutcome.ok ⟨c :: rest⟩)
      = Except.ok c.message.content ∧
    ChatbotServiceLM.generateResponse (ChatCallOutcome.ok ⟨[]⟩)
      = Except.error "Failed to generate response. Please ensure LM Studio is running." ∧
    (ChatbotServiceLM.generateResponse (ChatCallOutcome.ok r) = Except.ok s →
      ∃ c0 rest0, r.choices = c0 :: rest0 ∧ s = c0.message.content) := by
  refine ⟨?_, ?_, ?_, ?_, ?_, ?_⟩
  · unfold ChatbotService.generateResponse ChatbotService.tryGenerate
    rw [if_neg hk]
    simp [hc]
  · unfold ChatbotService.generateResponse ChatbotService.tryGenerate
    rw [if_neg hk]
    rfl
  · intro hok
    obtain ⟨choices⟩ := r
    cases choices with
    | nil =>
      unfold ChatbotService.generateResponse ChatbotService.tryGenerate at hok
      rw [if_neg hk] at hok
      simp at hok
    | cons c0 rest0 =>
      unfold ChatbotService.generateResponse ChatbotService.tryGenerate at hok
      rw [if_neg hk] at hok
      by_cases hc0 : c0.message.content = ""
      · simp [hc0] at hok
      · simp [hc0] at hok
        exact ⟨c0, rest0, rfl, hok.symm⟩
  · simp [ChatbotServiceLM.generateResponse, ChatbotServiceLM.tryGenerate, hc]
  · rfl
  · intro hok
    obtain ⟨choices⟩ := r
    cases choices with
    | nil =>
      simp [ChatbotServiceLM.generateResponse, ChatbotServiceLM.tryGenerate] at hok
    | cons c0 rest0 =>
      by_cases hc0 : c0.message.content = ""
      · simp [ChatbotServiceLM.generateResponse, ChatbotServiceLM.tryGenerate,
          hc0] at hok
      · simp [ChatbotServiceLM.generateResponse, ChatbotServiceLM.tryGenerate,
          hc0] at hok
        exact ⟨c0, rest0, rfl, hok.symm⟩

/-- Witness for C5 at a concrete reply. -/
theorem chat_service_pass_through_w :
    ("k1" : String) ≠ "" ∧
    (ChatChoice.mk ⟨"hello"⟩).message.content ≠ "" ∧
    (ChatbotService.generateResponse "k1"
        (ChatCallOutcome.ok ⟨[ChatChoice.mk ⟨"hello"⟩]⟩)
      = Except.ok (ChatChoice.mk ⟨"hello"⟩).message.content ∧
     ChatbotService.generateResponse "k1" (ChatCallOutcome.ok ⟨[]⟩)
      = Except.error "Failed to generate response. Please try again." ∧
     (ChatbotService.generateResponse "k1"
          (ChatCallOutcome.ok ⟨[ChatChoice.mk ⟨"hello"⟩]⟩) = Except.ok "hello" →
       ∃ c0 rest0, (OpenRouterResponse.mk [ChatChoice.mk ⟨"hello"⟩]).choices = c0 :: rest0 ∧
         "hello" = c0.message.content) ∧
     ChatbotServiceLM.generateResponse
        (ChatCallOutcome.ok ⟨[ChatChoice.mk ⟨"hello"⟩]⟩)
      = Except.ok (ChatChoice.mk ⟨"hello"⟩).message.content ∧
     ChatbotServiceLM.generateResponse (ChatCallOutcome.ok ⟨[]⟩)
      = Except.error "Failed to generate response. Please ensure LM Studio is running." ∧
     (ChatbotServiceLM.generateResponse
          (ChatCallOutcome.ok ⟨[ChatChoice.mk ⟨"hello"⟩]⟩) = Except.ok "hello" →
       ∃ c0 rest0, (OpenRouterResponse.mk [ChatChoice.mk ⟨"hello"⟩]).choices = c0 :: rest0 ∧
         "hello" = c0.message.content)) :=
  ⟨by decide, by decide,
   chat_service_pass_through "k1" (by decide) (ChatChoice.mk ⟨"hello"⟩) []
     (by decide) (OpenRouterResponse.mk [ChatChoice.mk ⟨"hello"⟩]) "hello"⟩

/-! ## Database schema (src/unnamed/part_018, schema.sql) -/

/-- A constraint declared by the schema DDL. -/
inductive SchemaConstraint where
  | primaryKey (tbl col : String)
  | foreignKey (tbl col refTbl refCol : String)
  | uniqueCol (tbl col : String)
  | notNullCol (tbl col : String)
  | defaultVal (tbl col dflt : String)
  | checkConstraint (tbl expr : String)
  deriving DecidableEq, Repr

/-- Whether a constraint is a foreign-key reference. -/
def SchemaConstraint.isForeignKey : SchemaConstraint → Bool
  | SchemaConstraint.foreignKey _ _ _ _ => true
  | _ => false

/-- Whether a constraint is a CHECK constraint. -/
def SchemaConstraint.isCheck : SchemaConstraint → Bool
  | SchemaConstraint.checkConstraint _ _ => true
  | _ => false

/-- Every constraint the schema declares on the four tables, read off the
`CREATE TABLE` statements of schema.sql. -/
def schemaConstraints : List SchemaConstraint :=
  [SchemaConstraint.primaryKey "users" "id",
   SchemaConstraint.defaultVal "users" "id" "uuid_generate_v4()",
   SchemaConstraint.uniqueCol "users" "email",
   SchemaConstraint.notNullCol "users" "email",
   SchemaConstraint.notNullCol "users" "password_hash",
   SchemaConstraint.notNullCol "users" "first_name",
   SchemaConstraint.notNullCol "users" "last_name",
   SchemaConstraint.defaultVal "users" "role" "customer",
   SchemaConstraint.defaultVal "users" "created_at" "NOW()",
   SchemaConstraint.defaultVal "users" "updated_at" "NOW()",
   SchemaConstraint.primaryKey "applications" "id",
   SchemaConstraint.defaultVal "applications" "id" "uuid_generate_v4()",
   SchemaConstraint.foreignKey "applications" "user_id" "users" "id",
   SchemaConstraint.uniqueCol "applications" "application_number",
   SchemaConstraint.notNullCol "applications" "application_number",
   SchemaConstraint.defaultVal "applications" "status" "draft",
   SchemaConstraint.defaultVal "applications" "created_at" "NOW()",
   SchemaConstraint.defaultVal "applications" "updated_at" "NOW()",
   SchemaConstraint.primaryKey "documents" "id",
   SchemaConstraint.defaultVal "documents" "id" "uuid_generate_v4()",
   SchemaConstraint.foreignKey "documents" "application_id" "applications" "id",
   SchemaConstraint.notNullCol "documents" "filename",
   SchemaConstraint.notNullCol "documents" "original_name",
   SchemaConstraint.notNullCol "documents" "file_path",
   SchemaConstraint.notNullCol "documents" "file_size",
   SchemaConstraint.notNullCol "documents" "mime_type",
   SchemaConstraint.notNullCol "documents" "document_type",
   SchemaConstraint.defaultVal "documents" "ai_processed" "FALSE",
   SchemaConstraint.defaultVal "documents" "created_at" "NOW()",
   SchemaConstraint.defaultVal "documents" "updated_at" "NOW()",
   SchemaConstraint.primaryKey "chat_conversations" "id",
   SchemaConstraint.defaultVal "chat_conversations" "id" "uuid_generate_v4()",
   SchemaConstraint.foreignKey "chat_conversations" "user_id" "users" "id",
   SchemaConstraint.foreignKey "chat_conversations" "application_id" "applications" "id",
   SchemaConstraint.notNullCol "chat_conversations" "messages",
   SchemaConstraint.defaultVal "chat_conversations" "created_at" "NOW()",
   SchemaConstraint.defaultVal "chat_conversations" "updated_at" "NOW()"]

/-- A trigger declared by the schema DDL. -/
structure SchemaTrigger where
  name : String
  tbl : String
  timing : String
  event : String
  fn : String
  deriving DecidableEq, Repr

/-- The four triggers of schema.sql: each touches `updated_at` before an
UPDATE via `update_updated_at_column()`. -/
def schemaTriggers : List SchemaTrigger :=
  [⟨"update_users_updated_at", "users", "BEFORE", "UPDATE", "update_updated_at_column"⟩,
   ⟨"update_applications_updated_at", "applications", "BEFORE", "UPDATE", "update_updated_at_column"⟩,
   ⟨"update_chat_conversations_updated_at", "chat_conversations", "BEFORE", "UPDATE", "update_updated_at_column"⟩,
   ⟨"update_documents_updated_at", "documents", "BEFORE", "UPDATE", "update_updated_at_column"⟩]

/-- C7 counterexample: the UNIQUE constraint on `users.email` is an integrity
invariant enforced by the schema that is not a foreign-key reference. -/
theorem schema_unique_email_not_foreign_key :
    SchemaConstraint.uniqueCol "users" "email" ∈ schemaConstraints ∧
    (SchemaConstraint.uniqueCol "users" "email").isForeignKey = false := by decide

/-- C7 as amended: besides foreign keys the schema enforces primary-key,
UNIQUE (`users.email`, `applications.application_number`), NOT NULL and
DEFAULT column constraints; it declares no CHECK constraint, enforces
referential integrity with exactly the four declared foreign keys, and its
only triggers are the BEFORE UPDATE `update_updated_at_column` timestamp
touches. -/
theorem schema_constraints_classification :
    schemaConstraints.all (fun c => !(SchemaConstraint.isCheck c)) = true ∧
    SchemaConstraint.uniqueCol "users" "email" ∈ schemaConstraints ∧
    SchemaConstraint.uniqueCol "applications" "application_number" ∈ schemaConstraints ∧
    schemaConstraints.filter SchemaConstraint.isForeignKey
      = [SchemaConstraint.foreignKey "applications" "user_id" "users" "id",
         SchemaConstraint.foreignKey "documents" "application_id" "applications" "id",
         SchemaConstraint.foreignKey "chat_conversations" "user_id" "users" "id",
         SchemaConstraint.foreignKey "chat_conversations" "application_id" "applications" "id"] ∧
    schemaTriggers.all
      (fun t => t.timing == "BEFORE" && t.event == "UPDATE"
        && t.fn == "update_updated_at_column") = true := by decide

/-! ## Risk scoring (frontend ApplicationDetail page src/unnamed/part_002,
and the application form frontend/src/pages/Documents.tsx) -/

/-- The risk-score colour classification of the ApplicationDetail page
(line 272): JavaScript
`application.riskScore && application.riskScore > 80 ? success : warning`,
with an absent or zero score falsy. -/
def riskScoreColor (riskScore : Option Rat) : String :=
  match riskScore with
  | none => "warning.main"
  | some s => if s ≠ 0 ∧ 80 < s then "success.main" else "warning.main"

/-! ### The risk-score computation of the application form
(frontend/src/pages/Documents.tsx, handleSubmit lines 306-329) -/

/-- The `financialInfo` step data the submission reads; every field can be
absent. -/
structure FinancialInfo where
  monthlyIncome : Option Rat
  monthlyExpenses : Option Rat
  existingLoans : Option Rat
  creditCards : Option Rat
  otherDebts : Option Rat
  assets : Option Rat
  deriving DecidableEq, Repr

/-- JavaScript optional chaining `applicationData.financialInfo?.f`. -/
def optField (fi : Option FinancialInfo) (f : FinancialInfo → Option Rat) :
    Option Rat :=
  match fi with
  | some x => f x
  | none => none

/-- `const monthlyIncome = applicationData.financialInfo?.monthlyIncome || 0`. -/
def fiMonthlyIncome (fi : Option FinancialInfo) : Rat :=
  jsOrRat (optField fi FinancialInfo.monthlyIncome) 0

/-- `const totalMonthlyDebt = monthlyExpenses + (existingLoans / 12) +
(creditCards / 12) + (otherDebts / 12)`, each operand defaulted with `|| 0`. -/
def fiTotalMonthlyDebt (fi : Option FinancialInfo) : Rat :=
  jsOrRat (optField fi FinancialInfo.monthlyExpenses) 0
    + jsOrRat (optField fi FinancialInfo.existingLoans) 0 / 12
    + jsOrRat (optField fi FinancialInfo.creditCards) 0 / 12
    + jsOrRat (optField fi FinancialInfo.otherDebts) 0 / 12

/-- `const dti = monthlyIncome > 0 ? (totalMonthlyDebt / monthlyIncome) * 100
: 0`. -/
def fiDti (fi : Option FinancialInfo) : Rat :=
  if 0 < fiMonthlyIncome fi then fiTotalMonthlyDebt fi / fiMonthlyIncome fi * 100
  else 0

/-- The assets condition guarding the last deduction:
`applicationData.financialInfo?.assets && applicationData.financialInfo.assets
< 50000`, with an absent or zero assets value falsy. -/
def fiAssetsFlag (fi : Option FinancialInfo) : Bool :=
  match optField fi FinancialInfo.assets with
  | some a => decide (a ≠ 0 ∧ a < 50000)
  | none => false

/-- The sequential deductions of `handleSubmit`: `let riskScore = 100;
if (dti > 40) riskScore -= 20; if (dti > 30) riskScore -= 10;
if (monthlyIncome < 5000) riskScore -= 15;` and `-= 10` under the assets
condition. -/
def computeRiskScoreRaw (fi : Option FinancialInfo) : Rat :=
  let r1 : Rat := 100
  let r2 := if 40 < fiDti fi then r1 - 20 else r1
  let r3 := if 30 < fiDti fi then r2 - 10 else r2
  let r4 := if fiMonthlyIncome fi < 5000 then r3 - 15 else r3
  if fiAssetsFlag fi then r4 - 10 else r4

/-- The risk score the form submits:
`riskScore: Math.max(0, Math.min(100, riskScore))`. -/
def submittedRiskScore (fi : Option FinancialInfo) : Rat :=
  max 0 (min 100 (computeRiskScoreRaw fi))

/-- The computed raw score in closed form: the base 100 minus one fixed
deduction per fired threshold comparison. -/
theorem computeRiskScoreRaw_closed (fi : Option FinancialInfo) :
    computeRiskScoreRaw fi
      = 100 - (if 40 < fiDti fi then (20 : Rat) else 0)
          - (if 30 < fiDti fi then 10 else 0)
          - (if fiMonthlyIncome fi < 5000 then 15 else 0)
          - (if fiAssetsFlag fi then 10 else 0) := by
  unfold computeRiskScoreRaw
  by_cases c1 : 40 < fiDti fi <;> by_cases c2 : 30 < fiDti fi <;>
    by_cases c3 : fiMonthlyIncome fi < 5000 <;> cases c4 : fiAssetsFlag fi <;>
    simp [c1, c2, c3, c4]

/-- C8: risk scoring is threshold comparison against fixed cutoffs: the score
the form computes is a function of the four comparisons `dti > 40`,
`dti > 30`, `monthlyIncome < 5000` and `assets < 50000` alone (two inputs
agreeing on those comparisons get the same score), it only ever takes one of
ten fixed values; the display classification is exactly the fixed-threshold
comparison `score > 80`, with an absent score classified as warning; and the
backend stores the submitted score defaulted to 0, computing nothing
further. -/
theorem risk_scoring_threshold_comparison
    (s : Rat) (db : Db) (newId : String) (req : CreateApplicationRequest)
    (fi fj : Option FinancialInfo)
    (h40 : 40 < fiDti fi ↔ 40 < fiDti fj)
    (h30 : 30 < fiDti fi ↔ 30 < fiDti fj)
    (hInc : fiMonthlyIncome fi < 5000 ↔ fiMonthlyIncome fj < 5000)
    (hAst : fiAssetsFlag fi = fiAssetsFlag fj) :
    submittedRiskScore fi = submittedRiskScore fj ∧
    submittedRiskScore fi ∈ ([45, 55, 60, 65, 70, 75, 80, 85, 90, 100] : List Rat) ∧
    riskScoreColor (some s)
      = (if 80 < s then "success.main" else "warning.main") ∧
    riskScoreColor none = "warning.main" ∧
    (ApplicationModel.create db newId req).1.risk_score = jsOrRat req.riskScore 0 := by
  refine ⟨?_, ?_, ?_, rfl, rfl⟩
  · unfold submittedRiskScore
    rw [computeRiskScoreRaw_closed, computeRiskScoreRaw_closed,
      if_congr h40 rfl rfl, if_congr h30 rfl rfl, if_congr hInc rfl rfl, hAst]
  · unfold submittedRiskScore
    rw [computeRiskScoreRaw_closed]
    by_cases c1 : 40 < fiDti fi <;> by_cases c2 : 30 < fiDti fi <;>
      by_cases c3 : fiMonthlyIncome fi < 5000 <;> cases c4 : fiAssetsFlag fi <;>
      norm_num [c1, c2, c3, c4, min_def, max_def]
  · by_cases h : 80 < s
    · have hs : s ≠ 0 := by
        intro h0
        rw [h0] at h
        norm_num at h
      simp [riskScoreColor, h, hs]
    · simp [riskScoreColor, h]

/-- Two concrete submissions with different incomes, expenses and assets but
the same threshold outcomes. -/
def sampleFiA : Option FinancialInfo :=
  some ⟨some 6000, some 1000, none, none, none, none⟩

/-- The second concrete submission. -/
def sampleFiB : Option FinancialInfo :=
  some ⟨some 8000, some 500, none, none, none, some 60000⟩

/-- Witness for C8 on two concrete form submissions. -/
theorem risk_scoring_threshold_comparison_w :
    (40 < fiDti sampleFiA ↔ 40 < fiDti sampleFiB) ∧
    (30 < fiDti sampleFiA ↔ 30 < fiDti sampleFiB) ∧
    (fiMonthlyIncome sampleFiA < 5000 ↔ fiMonthlyIncome sampleFiB < 5000) ∧
    fiAssetsFlag sampleFiA = fiAssetsFlag sampleFiB ∧
    (submittedRiskScore sampleFiA = submittedRiskScore sampleFiB ∧
     submittedRiskScore sampleFiA ∈ ([45, 55, 60, 65, 70, 75, 80, 85, 90, 100] : List Rat) ∧
     riskScoreColor (some 90)
       = (if 80 < (90 : Rat) then "success.main" else "warning.main") ∧
     riskScoreColor none = "warning.main" ∧
     (ApplicationModel.create (Db.mk [] []) "a2"
         ⟨"u1", "APP-2025-002", none, "pi", "pd", "li", "fi", some 85⟩).1.risk_score
       = jsOrRat (some 85) 0) := by
  have h40 : (40 < fiDti sampleFiA ↔ 40 < fiDti sampleFiB) := by
    norm_num [fiDti, fiTotalMonthlyDebt, fiMonthlyIncome, jsOrRat, optField,
      sampleFiA, sampleFiB]
  have h30 : (30 < fiDti sampleFiA ↔ 30 < fiDti sampleFiB) := by
    norm_num [fiDti, fiTotalMonthlyDebt, fiMonthlyIncome, jsOrRat, optField,
      sampleFiA, sampleFiB]
  have hInc : (fiMonthlyIncome sampleFiA < 5000 ↔ fiMonthlyIncome sampleFiB < 5000) := by
    norm_num [fiMonthlyIncome, jsOrRat, optField, sampleFiA, sampleFiB]
  have hAst : fiAssetsFlag sampleFiA = fiAssetsFlag sampleFiB := by
    norm_num [fiAssetsFlag, optField, sampleFiA, sampleFiB]
  exact ⟨h40, h30, hInc, hAst,
    risk_scoring_threshold_comparison 90 (Db.mk [] []) "a2"
      ⟨"u1", "APP-2025-002", none, "pi", "pd", "li", "fi", some 85⟩
      sampleFiA sampleFiB h40 h30 hInc hAst⟩

/-! ## Token generation (backend/src/controllers/authController.ts) -/

/-- The JWT payload `generateTokens` signs: `{ userId, email, role }`. -/
structure JWTPayload where
  userId : String
  email : String
  role : String
  deriving DecidableEq, Repr

/-- The options argument of `jwt.sign`; only `expiresIn` (in seconds)
matters here. -/
structure SignOptions where
  expiresIn : Option Nat
  deriving DecidableEq, Repr

/-- A token produced by `jwt.sign`: its claims, issue time, optional `exp`
claim and signing secret. -/
structure SignedJwt where
  payload : JWTPayload
  iat : Nat
  exp : Option Nat
  secret : String
  deriving DecidableEq, Repr

/-- `jwt.sign(payload, secret, options?)`: the `exp` claim is written only
when `options.expiresIn` is given. -/
def jwtSign (payload : JWTPayload) (secret : String) (options : Option SignOptions)
    (now : Nat) : SignedJwt :=
  { payload := payload, iat := now,
    exp := match options with
           | some o => o.expiresIn.map (fun d => now + d)
           | none => none,
    secret := secret }

/-- The age check of `jwt.verify`: `TokenExpiredError` is raised exactly when
an `exp` claim exists and the verification time is past it. -/
def jwtExpiredAt (t : SignedJwt) (now : Nat) : Bool :=
  match t.exp with
  | some e => decide (e < now)
  | none => false

/-- `AuthController.generateTokens` (authController.ts lines 277-294): both
tokens are signed with `process.env.JWT_SECRET || 'fallback-secret-key'` and
no options argument, so no `expiresIn` is ever passed. -/
def AuthController.generateTokens (envSecret : Option String)
    (userId email role : String) (now : Nat) : SignedJwt × SignedJwt :=
  let secret := jsOrStr envSecret "fallback-secret-key"
  (jwtSign { userId := userId, email := email, role := role } secret none now,
   jwtSign { userId := userId, email := email, role := role } secret none now)

/-- `register` issues its tokens with
`this.generateTokens(user.id, user.email, user.role)` (line 43). -/
def AuthController.registerTokens (envSecret : Option String) (u : UserRec)
    (now : Nat) : SignedJwt × SignedJwt :=
  AuthController.generateTokens envSecret u.id u.email u.role now

/-- `login` issues its tokens with
`this.generateTokens(user.id, user.email, user.role)` (line 128). -/
def AuthController.loginTokens (envSecret : Option String) (u : UserRec)
    (now : Nat) : SignedJwt × SignedJwt :=
  AuthController.generateTokens envSecret u.id u.email u.role now

/-- `refreshToken` issues its new tokens with
`this.generateTokens(user.id, user.email, user.role)` (lines 215-219). -/
def AuthController.refreshTokens (envSecret : Option String) (u : UserRec)
    (now : Nat) : SignedJwt × SignedJwt :=
  AuthController.generateTokens envSecret u.id u.email u.role now

/-- C10: every access and refresh token issued by register, login and
refreshToken carries no `exp` claim, and the verification-time age check can
never fail on them, at any later time. -/
theorem issued_tokens_never_expire
    (envSecret : Option String) (u : UserRec) (now checkTime : Nat) :
    (AuthController.registerTokens envSecret u now).1.exp = none ∧
    (AuthController.registerTokens envSecret u now).2.exp = none ∧
    (AuthController.loginTokens envSecret u now).1.exp = none ∧
    (AuthController.loginTokens envSecret u now).2.exp = none ∧
    (AuthController.refreshTokens envSecret u now).1.exp = none ∧
    (AuthController.refreshTokens envSecret u now).2.exp = none ∧
    jwtExpiredAt (AuthController.registerTokens envSecret u now).1 checkTime = false ∧
    jwtExpiredAt (AuthController.registerTokens envSecret u now).2 checkTime = false ∧
    jwtExpiredAt (AuthController.loginTokens envSecret u now).1 checkTime = false ∧
    jwtExpiredAt (AuthController.loginTokens envSecret u now).2 checkTime = false ∧
    jwtExpiredAt (AuthController.refreshTokens envSecret u now).1 checkTime = false ∧
    jwtExpiredAt (AuthController.refreshTokens envSecret u now).2 checkTime = false := by
  refine ⟨rfl, rfl, rfl, rfl, rfl, rfl, rfl, rfl, rfl, rfl, rfl, rfl⟩
